import Mathlib

/-!
Verification of the streaming voice-chat orchestrator (src/voicechat2.py).

This file shallowly embeds the parts of the program the specification talks
about: the sentence sanitizer `process_sentence`, the latency derivation
`calculate_latencies`, the token/sentence accumulation loop of
`generate_llm_response`, the function-call branch, `process_and_stream`, and the
`stop_recording` handling of `websocket_endpoint`.  External collaborators
(speech-to-text, the completion stream, the lookup made by `eval`, text-to-
speech) are parameters of the embedding.  Theorems at the end settle the
specification claims.
-/

namespace Voicechat

/-! ### Sentence sanitizer (`process_sentence`, lines 460-465)

`process_sentence` performs four `re.sub` substitutions and then `strip()`.
Each regex pass is simulated left to right at character level, exactly as the
Python `re` engine scans (leftmost match, continue after each match). -/

/-- Simulation of `re.sub(r"~+", "!", s)`: each maximal run of tildes becomes a
single `!`.  The boolean records whether the scan is inside a tilde run. -/
def collapseTildesAux : Bool → List Char → List Char
  | _, [] => []
  | inRun, c :: rest =>
    if c = '~' then
      if inRun then collapseTildesAux true rest
      else '!' :: collapseTildesAux true rest
    else c :: collapseTildesAux false rest

/-- Scan for the closing `)` of a lazy `\(.*?\)` match: the first `)` reached
without crossing a newline (`.` does not match a newline).  Returns the
remainder of the list after that `)`. -/
def parenClose : List Char → Option (List Char)
  | [] => none
  | c :: rest =>
    if c = ')' then some rest
    else if c = '\n' then none
    else parenClose rest

/-- Simulation of `re.sub(r"\(.*?\)", "", s)`, fuelled by the list length (each
recursive call moves strictly forward in the list, so the length is enough
fuel). -/
def removeParensAux : Nat → List Char → List Char
  | 0, l => l
  | _ + 1, [] => []
  | fuel + 1, c :: rest =>
    if c = '(' then
      match parenClose rest with
      | some rest2 => removeParensAux fuel rest2
      | none => c :: removeParensAux fuel rest
    else c :: removeParensAux fuel rest

def removeParens (l : List Char) : List Char :=
  removeParensAux l.length l

/-- Scan for the closing delimiter of `\*[^*]+\*` (resp. `_[^_]+_`): the first
later occurrence of the delimiter; everything before it is matched by the
character class. -/
def emphClose (d : Char) : List Char → Option (List Char)
  | [] => none
  | c :: rest => if c = d then some rest else emphClose d rest

/-- Simulation of `re.sub(r"(\*[^*]+\*)|(_[^_]+_)", "", s)`, fuelled by length.
A span needs a non-empty interior, so a pair of adjacent delimiters does not
match at the first delimiter and the scan moves on by one character. -/
def removeEmphAux : Nat → List Char → List Char
  | 0, l => l
  | _ + 1, [] => []
  | fuel + 1, c :: rest =>
    if c = '*' ∨ c = '_' then
      match rest with
      | [] => [c]
      | d :: _ =>
        if d = c then c :: removeEmphAux fuel rest
        else
          match emphClose c rest with
          | some rest2 => removeEmphAux fuel rest2
          | none => c :: removeEmphAux fuel rest
    else c :: removeEmphAux fuel rest

def removeEmph (l : List Char) : List Char :=
  removeEmphAux l.length l

/-- Characters removed by Python `str.strip()` (the ASCII part of the Python
whitespace set; `process_sentence` strips only after the ASCII filter). -/
def isPySpace (c : Char) : Bool :=
  c == ' ' || c == '\t' || c == '\n' || c == '\x0b' || c == '\x0c' || c == '\r' ||
  c == '\x1c' || c == '\x1d' || c == '\x1e' || c == '\x1f'

def pyStrip (l : List Char) : List Char :=
  ((l.dropWhile isPySpace).reverse.dropWhile isPySpace).reverse

/-- Model of `process_sentence` (lines 460-465): collapse tilde runs to `!`,
delete lazy parenthesized spans, delete `*...*` and `_..._` emphasis spans,
delete every character outside 7-bit ASCII, then strip. -/
def process_sentence (sentence : String) : String :=
  let s1 := collapseTildesAux false sentence.data
  let s2 := removeParens s1
  let s3 := removeEmph s2
  let s4 := s3.filter (fun c => c.toNat ≤ 0x7F)
  String.mk (pyStrip s4)

/-! ### Latency derivation (`ConversationManager.calculate_latencies`, lines 90-100) -/

structure LatencyMetrics where
  start_time : ℚ
  srt_start : ℚ
  srt_end : ℚ
  llm_start : ℚ
  llm_first_token : ℚ
  llm_first_sentence : ℚ
  tts_start : ℚ
  tts_end : ℚ
  first_audio_response : ℚ
deriving DecidableEq

structure Latencies where
  total_voice_to_voice : ℚ
  srt_duration : ℚ
  llm_ttft : ℚ
  llm_ttfs : ℚ
  tts_duration : ℚ
deriving DecidableEq

/-- Model of `calculate_latencies` (lines 90-100): five checkpoint differences. -/
def calculate_latencies (m : LatencyMetrics) : Latencies :=
  { total_voice_to_voice := m.first_audio_response - m.start_time
    srt_duration := m.srt_end - m.srt_start
    llm_ttft := m.llm_first_token - m.llm_start
    llm_ttfs := m.llm_first_sentence - m.llm_start
    tts_duration := m.tts_end - m.tts_start }

/-! ### Turn orchestrator

The duplex channel is modelled as the list of outbound events a turn emits, in
order.  The completion stream is a list of chunks (each chunk may carry a
content fragment and/or a tool-call fragment, like an OpenAI delta).  The
recursive sub-turn started by the function-call branch consumes the next
stream from a list of streams; a fuel argument bounds the recursion depth and
is always instantiated large enough in the theorems. -/

structure Msg where
  role : String
  content : String
deriving DecidableEq

def userMsg (s : String) : Msg := { role := "user", content := s }

def assistantMsg (s : String) : Msg := { role := "assistant", content := s }

/-- The fixed system directive (`SYSTEM`, lines 39-42). -/
def SYSTEM : Msg :=
  { role := "system"
    content := "You are a helpful AI voice assistant which can answer patient details to the doctor. You can also execute supabase queries to get patient details. Do not make up any information, only answer based on the information you have. Do not entertain any other questions." }

/-- Outbound behaviour visible on the duplex channel, plus the outgoing calls
to collaborators (`llmCall` is the completion request, `ttsDispatch` /
`ttsComplete` bracket one synthesis POST, `audio` is the `send_bytes` of the
returned payload). -/
inductive Event where
  | pong
  | interrupted
  | transcription (text : String)
  | textFrag (text : String)
  | llmCall (msgs : List Msg)
  | ttsDispatch (text : String)
  | ttsComplete (text : String)
  | audio (text : String)
  | firstAudio
  | latencyMetrics
  | errorEv (msg : String)
  | processingComplete
deriving DecidableEq

/-- Per-session state (`ConversationManager.create_session`, lines 50-72;
latency timestamps are modelled separately). -/
structure Session where
  conversation : List Msg
  llm_output_sentences : List String
  current_turn : Nat
  is_processing : Bool
  audio_buffer : String
  first_audio_sent : Bool
deriving DecidableEq

def initialSession : Session :=
  { conversation := [SYSTEM]
    llm_output_sentences := []
    current_turn := 0
    is_processing := false
    audio_buffer := ""
    first_audio_sent := false }

/-- Model of `add_user_message` (lines 102-107). -/
def addUserMessage (s : Session) (m : String) : Session :=
  { s with conversation := s.conversation ++ [userMsg m]
           current_turn := s.current_turn + 1 }

/-- Model of `add_ai_message` (lines 109-114). -/
def addAiMessage (s : Session) (m : String) : Session :=
  { s with conversation := s.conversation ++ [assistantMsg m]
           current_turn := s.current_turn + 1 }

/-- One delta of the completion stream: an optional content fragment and an
optional tool-call arguments fragment. -/
structure Chunk where
  content : Option String
  tool : Option String
deriving DecidableEq

def contentChunk (s : String) : Chunk := { content := some s, tool := none }

def toolChunk (s : String) : Chunk := { content := none, tool := some s }

/-- Model of `content.endswith((".", "!", "?"))` (line 350): the suffixes are
single characters, so this is a last-character test. -/
def endsWithPunct (s : String) : Bool :=
  match s.data.getLast? with
  | some c => c == '.' || c == '!' || c == '?'
  | none => false

/-- Events of one `generate_and_send_tts` call (lines 441-445): the POST to the
synthesis collaborator is awaited inline, then the payload is sent. -/
def ttsEvents (text : String) : List Event :=
  [Event.ttsDispatch text, Event.ttsComplete text, Event.audio text]

/-- Loop state of the `for chunk in ...` loop of `generate_llm_response`
(lines 324-375): emitted events so far, `complete_text`, `accumulated_text`,
the accumulated tool-call fragments, and the session's `first_audio_sent`
flag (read and written inside the loop). -/
structure LoopState where
  events : List Event
  complete : String
  acc : String
  tools : List String
  flag : Bool
deriving DecidableEq

/-- Handling of a non-empty content fragment (lines 339-372): extend
`complete_text` and `accumulated_text`, send the text event; on a sentence
boundary dispatch synthesis for the accumulated sentence, reset the
accumulator, and emit the one-time `first_audio_response` event. -/
def contentStep (st : LoopState) (c : String) : LoopState :=
  if c = "" then st
  else if endsWithPunct c then
    if st.flag then
      { st with events := st.events ++ [Event.textFrag c] ++ ttsEvents (st.acc ++ c)
                complete := st.complete ++ c
                acc := "" }
    else
      { st with events := st.events ++ [Event.textFrag c] ++ ttsEvents (st.acc ++ c) ++ [Event.firstAudio]
                complete := st.complete ++ c
                acc := ""
                flag := true }
  else
    { st with events := st.events ++ [Event.textFrag c]
              complete := st.complete ++ c
              acc := st.acc ++ c }

/-- One iteration of the chunk loop (lines 336-375): `if content:` then the
content handling, then `if delta.tool_calls:` accumulate the fragment. -/
def chunkStep (st : LoopState) (ch : Chunk) : LoopState :=
  let st1 :=
    match ch.content with
    | some c => contentStep st c
    | none => st
  match ch.tool with
  | some t => { st1 with tools := st1.tools ++ [t] }
  | none => st1

def runChunks (flag : Bool) (chunks : List Chunk) : LoopState :=
  List.foldl chunkStep { events := [], complete := "", acc := "", tools := [], flag := flag } chunks

def concatAll : List String → String
  | [] => ""
  | s :: rest => s ++ concatAll rest

def pleaseWaitText : String := "Please wait while I get the patient details..."

def apologyText : String :=
  "I am sorry, I am unable to get the patient details at this time. Please make sure the patient code is correct."

/-- The nested user text of the sub-turn (line 405). -/
def summarizeText (result : String) : String :=
  "Sumarize this result in simple language keep it breif, remove all punctuation: " ++ result

/-- The `UnboundLocalError` raised at line 401 when the lookup failed: `result`
is only assigned inside the `try`, yet is read unconditionally afterwards. -/
def resultUnboundMsg : String :=
  "local variable result referenced before assignment"

structure GenOut where
  events : List Event
  session : Session
  err : Option String
deriving DecidableEq

/-- Trailing part of `generate_llm_response` (lines 408-432): dispatch any
remaining accumulated text (with the `first_audio_response` gate), then append
`complete_text` as the assistant turn. -/
def finishGen (evs : List Event) (acc complete : String) (s : Session) : GenOut :=
  if acc = "" then
    { events := evs, session := addAiMessage s complete, err := none }
  else if s.first_audio_sent then
    { events := evs ++ ttsEvents acc, session := addAiMessage s complete, err := none }
  else
    { events := evs ++ ttsEvents acc ++ [Event.firstAudio]
      session := addAiMessage { s with first_audio_sent := true } complete
      err := none }

/-- Model of `generate_llm_response` (lines 319-438).  `streams.headD []` is
the completion stream answered to this call; a recursive sub-turn (the
function-call branch, lines 377-406) consumes `streams.tail`.  `lookup` is the
outcome of `eval(json.loads(args)["supabase_query"])`.  The recursive call
goes through `process_and_stream` (lines 288-294), whose `finally` clears
`is_processing` and `first_audio_sent`; that wrapper is inlined around the
recursive call.  An `err` result models an exception propagating out (the
function re-raises, line 438). -/
def generateLLM : Nat → List (List Chunk) → (String → Except String String) → Session → String → GenOut
  | 0, _, _, s, _ => { events := [], session := s, err := some "fuel exhausted" }
  | fuel + 1, streams, lookup, s, text =>
    let msgs := s.conversation ++ [userMsg text]
    let st := runChunks s.first_audio_sent (streams.headD [])
    let s1 := { s with first_audio_sent := st.flag }
    let evs := Event.llmCall msgs :: st.events
    if st.tools = [] then
      finishGen evs st.acc st.complete s1
    else
      let evs2 := evs ++ ttsEvents pleaseWaitText
      match lookup (concatAll st.tools) with
      | Except.error _ =>
        { events := evs2 ++ ttsEvents apologyText
          session := s1
          err := some resultUnboundMsg }
      | Except.ok result =>
        let g := generateLLM fuel streams.tail lookup s1 (summarizeText result)
        let sub : GenOut :=
          { g with session := { g.session with is_processing := false, first_audio_sent := false } }
        match sub.err with
        | some e => { events := evs2 ++ sub.events, session := sub.session, err := some e }
        | none => finishGen (evs2 ++ sub.events) st.acc st.complete sub.session

/-- Model of `process_and_stream` (lines 288-294): run the generation, then in
a `finally` clear `is_processing` and `first_audio_sent`. -/
def processAndStream (fuel : Nat) (streams : List (List Chunk)) (lookup : String → Except String String)
    (s : Session) (text : String) : GenOut :=
  let g := generateLLM fuel streams lookup s text
  { g with session := { g.session with is_processing := false, first_audio_sent := false } }

/-- The error message of `ValueError("Transcription resulted in empty text")`
(lines 237-239). -/
def emptyTranscriptionMsg : String := "Transcription resulted in empty text"

/-- Model of the `stop_recording` handling of `websocket_endpoint`
(lines 205-268).  `transcribe` is the outcome of `transcribe_audio`.  If a turn
is in flight the handler clears the sentence queue, clears `is_processing` and
sends `interrupted`; otherwise it runs the turn inside `try/except/finally`:
empty transcription raises, exceptions become an `error` event, the `finally`
clears `is_processing` and always sends `processing_complete`. -/
def handleStopRecording (fuel : Nat) (streams : List (List Chunk))
    (lookup : String → Except String String) (transcribe : Except String String)
    (s : Session) : Session × List Event :=
  if s.is_processing then
    ({ s with llm_output_sentences := [], is_processing := false }, [Event.interrupted])
  else
    let s1 := { s with is_processing := true }
    match transcribe with
    | Except.error e =>
      ({ s1 with is_processing := false }, [Event.errorEv e, Event.processingComplete])
    | Except.ok text =>
      if text = "" then
        ({ s1 with is_processing := false },
         [Event.errorEv emptyTranscriptionMsg, Event.processingComplete])
      else
        let s2 := addUserMessage s1 text
        let g := processAndStream fuel streams lookup s2 text
        match g.err with
        | some e =>
          ({ g.session with is_processing := false },
           Event.transcription text :: g.events ++ [Event.errorEv e, Event.processingComplete])
        | none =>
          ({ g.session with is_processing := false },
           Event.transcription text :: g.events ++ [Event.latencyMetrics, Event.processingComplete])

/-- The texts handed to the synthesis collaborator, in dispatch order. -/
def ttsDispatches (evs : List Event) : List String :=
  evs.filterMap fun e =>
    match e with
    | Event.ttsDispatch s => some s
    | _ => none

/-- Scan step for the overlap check: tracks (overlap found so far, a synthesis
call is in flight).  A token (`textFrag`) event while a synthesis call is in
flight is an overlap of token consumption with synthesis. -/
def scanStep : Bool × Bool → Event → Bool × Bool
  | (found, _), Event.ttsDispatch _ => (found, true)
  | (found, _), Event.ttsComplete _ => (found, false)
  | (found, inflight), Event.textFrag _ => (found || inflight, inflight)
  | (found, inflight), _ => (found, inflight)

/-- Whether any token event is consumed between a synthesis dispatch and that
dispatch's completion. -/
def overlapsSynthesis (evs : List Event) : Bool :=
  (evs.foldl scanStep (false, false)).1

def isFirstAudio : Event → Bool
  | Event.firstAudio => true
  | _ => false

def isPC : Event → Bool
  | Event.processingComplete => true
  | _ => false

/-- Number of events satisfying a predicate. -/
def countEv (p : Event → Bool) (evs : List Event) : Nat :=
  (evs.filter p).length

def bNat (b : Bool) : Nat := if b then 1 else 0

/-! ### Invariant lemmas about the emitted event lists -/

theorem countEv_append (p : Event → Bool) (a b : List Event) :
    countEv p (a ++ b) = countEv p a + countEv p b := by
  simp [countEv, List.filter_append]

theorem countEv_cons (p : Event → Bool) (e : Event) (l : List Event) :
    countEv p (e :: l) = (if p e then 1 else 0) + countEv p l := by
  by_cases h : p e <;> simp [countEv, List.filter_cons, h, Nat.add_comm]

/-- Traces emitted inside one turn never contain `processing_complete` (that
event is only sent by the websocket handler's `finally`) and never interleave
another event between a synthesis dispatch and its completion (the POST is
awaited inline). -/
def Tame (evs : List Event) : Prop :=
  (∀ f, List.foldl scanStep (f, false) evs = (f, false)) ∧ countEv isPC evs = 0

theorem tame_nil : Tame [] :=
  ⟨fun _ => rfl, rfl⟩

theorem tame_append {a b : List Event} (ha : Tame a) (hb : Tame b) : Tame (a ++ b) := by
  refine ⟨fun f => ?_, ?_⟩
  · rw [List.foldl_append, ha.1, hb.1]
  · rw [countEv_append, ha.2, hb.2]

theorem tame_text (c : String) : Tame [Event.textFrag c] := by
  refine ⟨fun f => ?_, rfl⟩
  simp [scanStep]

theorem tame_tts (s : String) : Tame (ttsEvents s) := by
  refine ⟨fun f => ?_, rfl⟩
  simp [ttsEvents, scanStep]

theorem tame_first : Tame [Event.firstAudio] := by
  refine ⟨fun f => ?_, rfl⟩
  simp [scanStep]

theorem tame_llm (m : List Msg) : Tame [Event.llmCall m] := by
  refine ⟨fun f => ?_, rfl⟩
  simp [scanStep]

theorem tame_contentStep {st : LoopState} (h : Tame st.events) (c : String) :
    Tame (contentStep st c).events := by
  unfold contentStep
  split_ifs <;>
    first
      | exact h
      | exact tame_append (tame_append h (tame_text c)) (tame_tts _)
      | exact tame_append (tame_append (tame_append h (tame_text c)) (tame_tts _)) tame_first
      | exact tame_append h (tame_text c)

theorem tame_chunkStep {st : LoopState} (h : Tame st.events) (ch : Chunk) :
    Tame (chunkStep st ch).events := by
  rcases ch with ⟨oc, ot⟩
  cases oc <;> cases ot <;>
    simp only [chunkStep] <;>
    first
      | exact h
      | exact tame_contentStep h _

theorem tame_foldl {st : LoopState} (h : Tame st.events) (cs : List Chunk) :
    Tame (List.foldl chunkStep st cs).events := by
  induction cs generalizing st with
  | nil => exact h
  | cons c cs ih => exact ih (tame_chunkStep h c)

theorem tame_runChunks (flag : Bool) (cs : List Chunk) : Tame (runChunks flag cs).events :=
  tame_foldl tame_nil cs

theorem tame_finishGen {evs : List Event} (h : Tame evs) (acc complete : String) (s : Session) :
    Tame (finishGen evs acc complete s).events := by
  unfold finishGen
  split_ifs <;>
    first
      | exact h
      | exact tame_append h (tame_tts _)
      | exact tame_append (tame_append h (tame_tts _)) tame_first

theorem tame_generateLLM (fuel : Nat) :
    ∀ (streams : List (List Chunk)) (lookup : String → Except String String)
      (s : Session) (text : String),
      Tame (generateLLM fuel streams lookup s text).events := by
  induction fuel with
  | zero =>
    intro streams lookup s text
    exact tame_nil
  | succ fuel ih =>
    intro streams lookup s text
    have hbase :
        Tame (Event.llmCall (s.conversation ++ [userMsg text])
          :: (runChunks s.first_audio_sent (streams.headD [])).events) :=
      tame_append (tame_llm _) (tame_runChunks _ _)
    simp only [generateLLM]
    split
    · exact tame_finishGen hbase _ _ _
    · split
      · exact tame_append (tame_append hbase (tame_tts _)) (tame_tts _)
      · split
        · exact tame_append (tame_append hbase (tame_tts _)) (ih _ _ _ _)
        · exact tame_finishGen (tame_append (tame_append hbase (tame_tts _)) (ih _ _ _ _)) _ _ _

theorem tame_processAndStream (fuel : Nat) (streams : List (List Chunk))
    (lookup : String → Except String String) (s : Session) (text : String) :
    Tame (processAndStream fuel streams lookup s text).events :=
  tame_generateLLM fuel streams lookup s text

/-! ### Counting `first_audio_response` emissions -/

theorem fa_contentStep (st : LoopState) (c : String) :
    countEv isFirstAudio (contentStep st c).events + bNat st.flag
      = countEv isFirstAudio st.events + bNat (contentStep st c).flag := by
  unfold contentStep
  split_ifs with h1 h2 h3 <;>
    simp [countEv_append, countEv, ttsEvents, isFirstAudio, bNat, *]

theorem fa_chunkStep (st : LoopState) (ch : Chunk) :
    countEv isFirstAudio (chunkStep st ch).events + bNat st.flag
      = countEv isFirstAudio st.events + bNat (chunkStep st ch).flag := by
  rcases ch with ⟨oc, ot⟩
  cases oc <;> cases ot <;> simp only [chunkStep] <;>
    first
      | rfl
      | exact fa_contentStep st _

theorem fa_foldl (cs : List Chunk) :
    ∀ st : LoopState,
      countEv isFirstAudio (List.foldl chunkStep st cs).events + bNat st.flag
        = countEv isFirstAudio st.events + bNat (List.foldl chunkStep st cs).flag := by
  induction cs with
  | nil => intro st; rfl
  | cons c cs ih =>
    intro st
    have h1 := fa_chunkStep st c
    have h2 := ih (chunkStep st c)
    simp only [List.foldl_cons]
    omega

theorem fa_finishGen (evs : List Event) (acc complete : String) (s : Session) :
    countEv isFirstAudio (finishGen evs acc complete s).events
      = countEv isFirstAudio evs
        + (if acc = "" then 0 else if s.first_audio_sent then 0 else 1) := by
  unfold finishGen
  split_ifs <;> simp [countEv_append, countEv, ttsEvents, isFirstAudio]

theorem contentStep_tools (st : LoopState) (c : String) :
    (contentStep st c).tools = st.tools := by
  unfold contentStep
  split_ifs <;> rfl

theorem tools_foldl (cs : List Chunk) (h : ∀ ch ∈ cs, ch.tool = none) :
    ∀ st : LoopState, (List.foldl chunkStep st cs).tools = st.tools := by
  induction cs with
  | nil => intro st; rfl
  | cons c cs ih =>
    intro st
    have hc : c.tool = none := h c (List.mem_cons_self c cs)
    have hr : ∀ ch ∈ cs, ch.tool = none := fun ch hm => h ch (List.mem_cons_of_mem c hm)
    simp only [List.foldl_cons]
    rw [ih hr]
    simp only [chunkStep, hc]
    cases hcc : c.content <;> simp [contentStep_tools]

/-! ### Dispatched text reconstructs the raw stream text -/

theorem concatAll_append (l1 l2 : List String) :
    concatAll (l1 ++ l2) = concatAll l1 ++ concatAll l2 := by
  induction l1 with
  | nil => simp [concatAll]
  | cons s rest ih => simp [concatAll, ih, String.append_assoc]

theorem ttsDispatches_append (l1 l2 : List Event) :
    ttsDispatches (l1 ++ l2) = ttsDispatches l1 ++ ttsDispatches l2 := by
  simp [ttsDispatches, List.filterMap_append]

theorem dispatch_concat (frags : List String) :
    ∀ st : LoopState,
      concatAll (ttsDispatches (List.foldl chunkStep st (frags.map contentChunk)).events)
          ++ (List.foldl chunkStep st (frags.map contentChunk)).acc
        = concatAll (ttsDispatches st.events) ++ (st.acc ++ concatAll frags) := by
  induction frags with
  | nil =>
    intro st
    simp [concatAll, String.append_empty]
  | cons f fs ih =>
    intro st
    simp only [List.map_cons, List.foldl_cons]
    rw [ih (chunkStep st (contentChunk f))]
    show concatAll (ttsDispatches (contentStep st f).events)
        ++ ((contentStep st f).acc ++ concatAll fs)
      = concatAll (ttsDispatches st.events) ++ (st.acc ++ concatAll (f :: fs))
    unfold contentStep
    split_ifs with h1 h2 h3 <;>
      simp [concatAll, ttsDispatches_append, concatAll_append, ttsDispatches, ttsEvents,
        String.append_assoc, String.append_empty, String.empty_append, h1]

theorem fa_runChunks (flag : Bool) (cs : List Chunk) :
    countEv isFirstAudio (runChunks flag cs).events + bNat flag
      = bNat (runChunks flag cs).flag := by
  have h := fa_foldl cs { events := [], complete := "", acc := "", tools := [], flag := flag }
  simpa [runChunks, countEv] using h

/-- Every completion call is announced by a leading `llmCall` event carrying
the current conversation plus the extra user message. -/
theorem gen_head (fuel : Nat) (streams : List (List Chunk))
    (lookup : String → Except String String) (s : Session) (text : String) :
    ∃ r, (generateLLM (fuel + 1) streams lookup s text).events
        = Event.llmCall (s.conversation ++ [userMsg text]) :: r := by
  simp only [generateLLM]
  split
  · unfold finishGen
    split_ifs <;> exact ⟨_, rfl⟩
  · split
    · exact ⟨_, rfl⟩
    · split
      · exact ⟨_, rfl⟩
      · unfold finishGen
        split_ifs <;> exact ⟨_, rfl⟩

theorem getLast_cons_append_pair (e a b : Event) (l : List Event) :
    (e :: l ++ [a, b]).getLast? = some b := by
  have h : e :: l ++ [a, b] = (e :: l ++ [a]) ++ [b] := by simp
  rw [h, List.getLast?_concat]

theorem countEv_nil (p : Event → Bool) : countEv p [] = 0 := rfl

theorem isPC_errorEv (e : String) : isPC (Event.errorEv e) = false := rfl

theorem isPC_transcription (t : String) : isPC (Event.transcription t) = false := rfl

theorem isPC_latency : isPC Event.latencyMetrics = false := rfl

theorem isPC_pc : isPC Event.processingComplete = true := rfl

/-! ## Claims -/

/-- Claim C1 counterexample: interrupting an in-flight turn emits only the
single `interrupted` event — no `processing_complete` follows on that path
(lines 210-218 are outside the `try/finally` of lines 226-268), so the
interruption path does not end with exactly one `processing_complete`. -/
theorem c1_counterexample :
    (handleStopRecording 1 [] (fun _ => Except.ok "") (Except.ok "x")
        { initialSession with is_processing := true }).2 = [Event.interrupted]
      ∧ countEv isPC (handleStopRecording 1 [] (fun _ => Except.ok "") (Except.ok "x")
        { initialSession with is_processing := true }).2 ≠ 1 := by
  decide

/-- Claim C1 amended: the success and failure paths of a turn end with exactly
one `processing_complete` event (it is the last event emitted); the
interruption path instead emits exactly the single `interrupted` event and no
`processing_complete`. -/
theorem c1_amended_processing_complete (fuel : Nat) (streams : List (List Chunk))
    (lookup : String → Except String String) (tr : Except String String) (s : Session) :
    (s.is_processing = true →
      (handleStopRecording fuel streams lookup tr s).2 = [Event.interrupted])
    ∧ (s.is_processing = false →
      countEv isPC (handleStopRecording fuel streams lookup tr s).2 = 1
        ∧ (handleStopRecording fuel streams lookup tr s).2.getLast?
            = some Event.processingComplete) := by
  constructor
  · intro h
    simp [handleStopRecording, h]
  · intro h
    cases tr with
    | error e => simp [handleStopRecording, h, countEv, isPC]
    | ok text =>
      by_cases ht : text = ""
      · simp [handleStopRecording, h, ht, countEv, isPC]
      · have hg := (tame_processAndStream fuel streams lookup
          (addUserMessage { s with is_processing := true } text) text).2
        simp only [handleStopRecording, h, ht, Bool.false_eq_true, if_false, ite_false]
        cases herr : (processAndStream fuel streams lookup
            (addUserMessage { s with is_processing := true } text) text).err with
        | some e =>
          simp only [herr]
          exact ⟨by simp [countEv_cons, countEv_append, hg, countEv_nil, isPC_errorEv,
              isPC_transcription, isPC_pc],
            getLast_cons_append_pair _ _ _ _⟩
        | none =>
          simp only [herr]
          exact ⟨by simp [countEv_cons, countEv_append, hg, countEv_nil, isPC_latency,
              isPC_transcription, isPC_pc],
            getLast_cons_append_pair _ _ _ _⟩

/-- Claim C1 witness: a concrete interrupted turn and a concrete failed turn,
instantiating both branches of the amended theorem. -/
theorem c1_witness :
    (handleStopRecording 0 [] (fun _ => Except.ok "") (Except.error "boom")
        { initialSession with is_processing := true }).2 = [Event.interrupted]
      ∧ countEv isPC (handleStopRecording 0 [] (fun _ => Except.ok "") (Except.error "boom")
        initialSession).2 = 1 :=
  ⟨(c1_amended_processing_complete 0 [] (fun _ => Except.ok "") (Except.error "boom")
      { initialSession with is_processing := true }).1 rfl,
   ((c1_amended_processing_complete 0 [] (fun _ => Except.ok "") (Except.error "boom")
      initialSession).2 rfl).1⟩

/-- Claim C2 counterexample: the loop hands the raw accumulated sentence to
synthesis, not its sanitized form — on the fragment "café." the dispatched
text is "café." although the sanitizer maps it to "caf.". -/
theorem c2_counterexample :
    ttsDispatches (runChunks false [contentChunk "café."]).events = ["café."]
      ∧ process_sentence "café." ≠ "café." := by
  decide

/-- Claim C2 amended: `generate_llm_response` dispatches each accumulated
sentence verbatim — the sanitizer is not applied on this path — so
concatenating the dispatched fragments with the remaining accumulation buffer
reconstructs exactly the concatenated raw stream text. -/
theorem c2_amended_raw_dispatch (frags : List String) (flag : Bool) :
    concatAll (ttsDispatches (runChunks flag (frags.map contentChunk)).events)
        ++ (runChunks flag (frags.map contentChunk)).acc
      = concatAll frags := by
  have h := dispatch_concat frags
    { events := [], complete := "", acc := "", tools := [], flag := flag }
  simpa [runChunks, concatAll, ttsDispatches, String.empty_append] using h

/-- Claim C3 (code bug): on a failing lookup the turn delivers the spoken
apology, but then reads the unassigned local `result` (line 401) — the whole
turn aborts through the error path: an `error` event is emitted and no
assistant entry is appended, while the handler's `finally` still sends
`processing_complete`. -/
theorem c3_lookup_failure_aborts_turn :
    (handleStopRecording 1 [[contentChunk "Hi.", toolChunk "badargs"]]
        (fun _ => Except.error "eval failed") (Except.ok "hello") initialSession).2
      = [Event.transcription "hello",
         Event.llmCall [SYSTEM, userMsg "hello", userMsg "hello"],
         Event.textFrag "Hi.",
         Event.ttsDispatch "Hi.", Event.ttsComplete "Hi.", Event.audio "Hi.",
         Event.firstAudio,
         Event.ttsDispatch pleaseWaitText, Event.ttsComplete pleaseWaitText,
         Event.audio pleaseWaitText,
         Event.ttsDispatch apologyText, Event.ttsComplete apologyText,
         Event.audio apologyText,
         Event.errorEv resultUnboundMsg, Event.processingComplete]
      ∧ (handleStopRecording 1 [[contentChunk "Hi.", toolChunk "badargs"]]
        (fun _ => Except.error "eval failed") (Except.ok "hello") initialSession).1.conversation
      = [SYSTEM, userMsg "hello"] := by
  constructor
  · rfl
  · rfl

/-- Claim C4 counterexample: a turn whose stream carries a completed sentence,
trailing text and a function-call directive, followed by a nested sub-turn,
emits `first_audio_response` twice: the nested `process_and_stream` finalizer
(line 294) resets `first_audio_sent`, so the trailing text dispatched after
the sub-turn re-fires the milestone. -/
theorem c4_counterexample :
    countEv isFirstAudio (generateLLM 2
        [[contentChunk "A.", contentChunk " tail", toolChunk "q"], [contentChunk "B."]]
        (fun _ => Except.ok "R") initialSession "go").events = 2
      ∧ ¬ countEv isFirstAudio (generateLLM 2
        [[contentChunk "A.", contentChunk " tail", toolChunk "q"], [contentChunk "B."]]
        (fun _ => Except.ok "R") initialSession "go").events ≤ 1 := by
  decide

/-- Claim C4 amended: within a turn that involves no function-call sub-turn,
`first_audio_response` is emitted at most once, gated by `first_audio_sent`;
a nested sub-turn resets the gate in its finalizer and can make the turn emit
the event a second time. -/
theorem c4_amended_no_subturn (fuel : Nat) (streams : List (List Chunk))
    (lookup : String → Except String String) (s : Session) (text : String)
    (h : ∀ ch ∈ streams.headD [], ch.tool = none) :
    countEv isFirstAudio (generateLLM fuel streams lookup s text).events ≤ 1 := by
  cases fuel with
  | zero => simp [generateLLM, countEv]
  | succ fuel =>
    have htools : (runChunks s.first_audio_sent (streams.headD [])).tools = [] := by
      have h2 := tools_foldl (streams.headD []) h
        { events := [], complete := "", acc := "", tools := [], flag := s.first_audio_sent }
      simpa [runChunks] using h2
    have hfa := fa_runChunks s.first_audio_sent (streams.headD [])
    simp only [generateLLM]
    rw [if_pos htools, fa_finishGen, countEv_cons]
    rw [show ({ s with first_audio_sent :=
          (runChunks s.first_audio_sent (streams.headD [])).flag } : Session).first_audio_sent
        = (runChunks s.first_audio_sent (streams.headD [])).flag from rfl]
    simp only [show (if isFirstAudio (Event.llmCall (s.conversation ++ [userMsg text])) = true
        then 1 else 0) = 0 from rfl]
    simp only [bNat] at hfa
    split_ifs at hfa ⊢ <;> omega

/-- Claim C4 witness: a concrete one-sentence turn without a function call. -/
theorem c4_witness :
    (∀ ch ∈ ([[contentChunk "A."]] : List (List Chunk)).headD [], ch.tool = none)
      ∧ countEv isFirstAudio (generateLLM 1 [[contentChunk "A."]]
          (fun _ => Except.ok "") initialSession "t").events ≤ 1 :=
  ⟨by decide,
   c4_amended_no_subturn 1 [[contentChunk "A."]] (fun _ => Except.ok "") initialSession "t"
     (by decide)⟩

/-- Claim C5 (confirmed): on the checkpoints sttStart=0, sttEnd=2, llmStart=2,
llmFirstToken=3, llmFirstSentence=4, ttsStart=4, ttsEnd=6,
firstAudioResponse=4.5, turnStart=0, `calculate_latencies` derives
sttDuration=2, llmTimeToFirstToken=1, llmTimeToFirstSentence=2, ttsDuration=2
and totalVoiceToVoice=4.5. -/
theorem c5_latency_derivation :
    calculate_latencies
        { start_time := 0, srt_start := 0, srt_end := 2, llm_start := 2,
          llm_first_token := 3, llm_first_sentence := 4, tts_start := 4,
          tts_end := 6, first_audio_response := 9 / 2 }
      = { total_voice_to_voice := 9 / 2, srt_duration := 2, llm_ttft := 1,
          llm_ttfs := 2, tts_duration := 2 } := by
  simp only [calculate_latencies]
  norm_num

/-- Claim C6 counterexample: `process_sentence` is not idempotent — on
"**c*B*" the emphasis pass consumes the middle pair of stars and leaves a new
`*B*` span, which a second application removes. -/
theorem c6_counterexample :
    process_sentence (process_sentence "**c*B*") ≠ process_sentence "**c*B*" := by
  decide

/-- Claim C6 amended: `process_sentence` is total (it is a plain function on
strings) but not idempotent: sanitizing "**c*B*" yields "*B*", and sanitizing
"*B*" yields the empty string. -/
theorem c6_amended_not_idempotent :
    process_sentence "**c*B*" = "*B*" ∧ process_sentence "*B*" = "" := by
  decide

/-- Claim C7 (confirmed): feeding the fragments "Hello", " there", ".",
" How", " are", " you", "?" through the accumulation loop dispatches exactly
the two sentences "Hello there." and " How are you?", in that order, leaving
an empty accumulator at stream end. -/
theorem c7_segmentation :
    ttsDispatches (runChunks false
        (["Hello", " there", ".", " How", " are", " you", "?"].map contentChunk)).events
        = ["Hello there.", " How are you?"]
      ∧ (runChunks false
        (["Hello", " there", ".", " How", " are", " you", "?"].map contentChunk)).acc
        = "" := by
  decide

/-- Claim C8 (confirmed): an empty transcription raises before the completion
service is invoked; the turn fails with the explicit error event, no history
entry is appended, `is_processing` is cleared and `processing_complete` is
sent. -/
theorem c8_empty_transcription (fuel : Nat) (streams : List (List Chunk))
    (lookup : String → Except String String) (s : Session)
    (h : s.is_processing = false) :
    (handleStopRecording fuel streams lookup (Except.ok "") s).2
        = [Event.errorEv emptyTranscriptionMsg, Event.processingComplete]
      ∧ (handleStopRecording fuel streams lookup (Except.ok "") s).1.conversation
        = s.conversation
      ∧ (handleStopRecording fuel streams lookup (Except.ok "") s).1.is_processing = false
      ∧ ∀ m, Event.llmCall m ∉ (handleStopRecording fuel streams lookup (Except.ok "") s).2 := by
  simp [handleStopRecording, h]

/-- Claim C8 witness: a fresh session with an empty transcription result. -/
theorem c8_witness :
    (handleStopRecording 1 [] (fun _ => Except.ok "") (Except.ok "") initialSession).2
      = [Event.errorEv emptyTranscriptionMsg, Event.processingComplete] :=
  (c8_empty_transcription 1 [] (fun _ => Except.ok "") initialSession rfl).1

/-- Claim C9 counterexample: in a turn with two dispatched sentences, no token
event occurs between a synthesis dispatch and its completion — the chunk loop
awaits each synthesis call before consuming the next chunk, so token
consumption and synthesis do not overlap. -/
theorem c9_counterexample :
    overlapsSynthesis (generateLLM 1 [[contentChunk "A.", contentChunk " B."]]
        (fun _ => Except.ok "") initialSession "q").events = false
      ∧ (ttsDispatches (generateLLM 1 [[contentChunk "A.", contentChunk " B."]]
        (fun _ => Except.ok "") initialSession "q").events).length = 2 := by
  decide

/-- Claim C9 amended: the orchestrator serializes token consumption with
synthesis: in every generated trace, no token event occurs between a
synthesis dispatch and that call's completion. -/
theorem c9_amended_serialized (fuel : Nat) (streams : List (List Chunk))
    (lookup : String → Except String String) (s : Session) (text : String) :
    overlapsSynthesis (generateLLM fuel streams lookup s text).events = false := by
  have h := (tame_generateLLM fuel streams lookup s text).1 false
  simp [overlapsSynthesis, h]

/-- Claim C10 (confirmed): for a turn started with a non-empty transcription,
the completion request contains the transcribed user text twice — once as the
final element of the stored history (appended by `add_user_message`) and once
more as the extra user message added when building the request (line 332). -/
theorem c10_duplicated_user_text (fuel : Nat) (streams : List (List Chunk))
    (lookup : String → Except String String) (s : Session) (t : String)
    (h1 : s.is_processing = false) (h2 : t ≠ "") :
    Event.llmCall (s.conversation ++ [userMsg t, userMsg t])
      ∈ (handleStopRecording (fuel + 1) streams lookup (Except.ok t) s).2 := by
  obtain ⟨r, hr⟩ := gen_head fuel streams lookup
    (addUserMessage { s with is_processing := true } t) t
  have hconv : (addUserMessage { s with is_processing := true } t).conversation ++ [userMsg t]
      = s.conversation ++ [userMsg t, userMsg t] := by
    simp [addUserMessage]
  rw [hconv] at hr
  simp only [handleStopRecording, h1, Bool.false_eq_true, if_false, ite_false, h2]
  cases herr : (processAndStream (fuel + 1) streams lookup
      (addUserMessage { s with is_processing := true } t) t).err with
  | some e =>
    simp only [herr]
    have he : (processAndStream (fuel + 1) streams lookup
        (addUserMessage { s with is_processing := true } t) t).events
        = Event.llmCall (s.conversation ++ [userMsg t, userMsg t]) :: r := hr
    simp [he]
  | none =>
    simp only [herr]
    have he : (processAndStream (fuel + 1) streams lookup
        (addUserMessage { s with is_processing := true } t) t).events
        = Event.llmCall (s.conversation ++ [userMsg t, userMsg t]) :: r := hr
    simp [he]

/-- Claim C10 witness: a fresh session and the transcription "hi". -/
theorem c10_witness :
    Event.llmCall [SYSTEM, userMsg "hi", userMsg "hi"]
      ∈ (handleStopRecording 1 [] (fun _ => Except.ok "") (Except.ok "hi") initialSession).2 :=
  c10_duplicated_user_text 0 [] (fun _ => Except.ok "") initialSession "hi" rfl (by decide)

end Voicechat
